import Mathlib

/- A formal model of the client-side script of the Jyotirvaani site
   (script.js): the booking journal stored under the localStorage key
   jyotir_bookings, the quick-book and full booking form handlers, the
   modal presenter, the article buttons, and the 12-sector kundli
   diagram generator.  JavaScript values that can live in the journal
   are modelled by an inductive JSON type; JavaScript property access,
   truthiness, numeric coercion and Array.prototype.push are modelled
   by total Lean functions; runtime exceptions (JSON.parse
   SyntaxError, TypeError, a storage quota error on setItem) are
   modelled with Except.  Real trigonometry models Math.cos / Math.sin
   in the diagram generator. -/

namespace Jyotirvaani

/-- ASCII whitespace, the whitespace that the page's form inputs can
actually contain; used to model String.prototype.trim. -/
def isWs (c : Char) : Bool :=
  c == ' ' || c == '\t' || c == '\n' || c == '\r'

/-- String.prototype.trim, modelled over the character list. -/
def jsTrim (s : String) : String :=
  String.mk (((s.data.dropWhile isWs).reverse.dropWhile isWs).reverse)

/-- Whether the first list starts with the second. -/
def startsWithChars : List Char → List Char → Bool
  | _, [] => true
  | [], _ :: _ => false
  | c :: cs, d :: ds => c == d && startsWithChars cs ds

/-- String.prototype.startsWith, modelled over the character lists. -/
def jsStartsWith (s pre : String) : Bool :=
  startsWithChars s.data pre.data

/-- Decimal digit value of a character, if it is one. -/
def digitVal (c : Char) : Option Nat :=
  if '0' ≤ c ∧ c ≤ '9' then some (c.toNat - '0'.toNat) else none

/-- Parse a non-empty all-digit character list as a natural number. -/
def parseNatChars (cs : List Char) : Option Nat :=
  match cs with
  | [] => none
  | _ => cs.foldl (fun acc c => acc.bind (fun n => (digitVal c).map (fun d => n * 10 + d))) (some 0)

/-- Parse an optionally signed decimal integer character list. -/
def parseIntChars : List Char → Option Int
  | '-' :: cs => (parseNatChars cs).map (fun n => -(n : Int))
  | '+' :: cs => (parseNatChars cs).map (fun n => (n : Int))
  | cs => (parseNatChars cs).map (fun n => (n : Int))

/-- JSON values, as produced by JSON.parse (numbers restricted to the
integers, which covers every value the script itself ever writes). -/
inductive Json where
  | null
  | bool (b : Bool)
  | num (n : Int)
  | str (s : String)
  | arr (elems : List Json)
  | obj (fields : List (String × Json))

/-- Runtime exceptions that the script can raise: a JSON.parse
SyntaxError, a TypeError (property access on null, calling push on a
non-array), and a storage failure thrown by localStorage.setItem. -/
inductive JsError where
  | syntaxError
  | typeError
  | quotaError
deriving DecidableEq

/-- The content of the localStorage cell under the key jyotir_bookings:
the key can be absent (getItem returns null), hold a string that is not
valid JSON (JSON.parse throws), or hold a string parsing to a JSON
value. -/
inductive StoredJournal where
  | absent
  | malformed
  | parsed (v : Json)

/-- Model of the read pattern used at every journal read site
(script.js lines 64, 117, 130, 202):
JSON.parse(localStorage.getItem('jyotir_bookings') || '[]').
An absent key yields the string '[]', hence the empty array; a
malformed stored string makes JSON.parse throw a SyntaxError. -/
def readJournal : StoredJournal → Except JsError Json
  | .absent => .ok (.arr [])
  | .malformed => .error .syntaxError
  | .parsed v => .ok v

/-- First-match lookup of an own property in a JavaScript object
modelled as an ordered field list. -/
def objLookup (fields : List (String × Json)) (k : String) : Option Json :=
  (fields.find? (fun p => p.1 = k)).map (fun p => p.2)

/-- JavaScript property read v.length; none models undefined, and
reading a property of null throws a TypeError. -/
def jsLength : Json → Except JsError (Option Json)
  | .null => .error .typeError
  | .bool _ => .ok none
  | .num _ => .ok none
  | .str s => .ok (some (.num (s.length : Int)))
  | .arr xs => .ok (some (.num (xs.length : Int)))
  | .obj fs => .ok (objLookup fs "length")

/-- JavaScript truthiness of a value. -/
def jsTruthy : Json → Bool
  | .null => false
  | .bool b => b
  | .num n => decide (n ≠ 0)
  | .str s => decide (s ≠ "")
  | .arr _ => true
  | .obj _ => true

/-- Truthiness of a possibly-undefined value (undefined is falsy). -/
def jsTruthyOpt : Option Json → Bool
  | none => false
  | some v => jsTruthy v

/-- String conversion of a JSON value, as used by JavaScript template
interpolation; arrays stringify via Array.prototype.join with comma,
where null elements become the empty string. -/
def jsToString : Json → String
  | .null => "null"
  | .bool b => cond b "true" "false"
  | .num n => toString n
  | .str s => s
  | .obj _ => "[object Object]"
  | .arr xs => jsJoin xs
where
  jsJoin : List Json → String
  | [] => ""
  | [Json.null] => ""
  | [x] => jsToString x
  | Json.null :: xs => "," ++ jsJoin xs
  | x :: xs => jsToString x ++ "," ++ jsJoin xs

/-- JavaScript ToNumber coercion, restricted to integer outcomes; none
models NaN.  Strings (and arrays, which coerce through their joined
string) coerce to 0 when blank and otherwise to their integer reading,
with NaN for anything non-integral. -/
def jsToNumberInt : Json → Option Int
  | .null => some 0
  | .bool b => some (cond b 1 0)
  | .num n => some n
  | .str s => if jsTrim s = "" then some 0 else parseIntChars (jsTrim s).data
  | .arr xs =>
      let s := jsToString.jsJoin xs
      if jsTrim s = "" then some 0 else parseIntChars (jsTrim s).data
  | .obj _ => none

/-- JavaScript computed index access v[i] with a numeric (or NaN)
index; none models undefined.  Arrays and strings answer integral
in-range indices, objects answer by property-name lookup. -/
def jsIndexByNumber (v : Json) (idx : Option Int) : Except JsError (Option Json) :=
  match v, idx with
  | .null, _ => .error .typeError
  | .arr xs, some i => .ok (if 0 ≤ i then xs[i.toNat]? else none)
  | .arr _, none => .ok none
  | .str s, some i =>
      .ok (if 0 ≤ i then (s.data[i.toNat]?).map (fun c => .str (String.singleton c)) else none)
  | .str _, none => .ok none
  | .obj fs, some i => .ok (objLookup fs (toString i))
  | .obj fs, none => .ok (objLookup fs "NaN")
  | .bool _, _ => .ok none
  | .num _, _ => .ok none

/-- Optional-chaining property read v?.name: undefined on null or
undefined receivers, own-property lookup on objects, undefined on
other primitives. -/
def jsOptChainProp (v : Option Json) (k : String) : Option Json :=
  match v with
  | none => none
  | some .null => none
  | some (.obj fs) => objLookup fs k
  | some _ => none

/-- Array.prototype.push on the parsed journal value; calling push on
a non-array throws a TypeError. -/
def jsPush (v : Json) (x : Json) : Except JsError Json :=
  match v with
  | .arr xs => .ok (.arr (xs ++ [x]))
  | _ => .error .typeError

/-- localStorage.setItem('jyotir_bookings', JSON.stringify(arr)):
succeeds and stores a string parsing back to arr, or throws a quota
error when the store is unavailable. -/
def setJournal (canWrite : Bool) (v : Json) : Except JsError StoredJournal :=
  if canWrite then .ok (.parsed v) else .error .quotaError

/-- The most-recent-booking computation of the kundli click handler
(script.js lines 202-203):
bookings.length ? bookings[bookings.length-1] : null.
The result some Json.null models the explicit null of the falsy
branch; none models an undefined index miss. -/
def lastBooking (stored : StoredJournal) : Except JsError (Option Json) := do
  let bookings ← readJournal stored
  let len ← jsLength bookings
  match len with
  | some lenVal =>
      if jsTruthy lenVal then do
        let lenAgain ← jsLength bookings
        let idx := (lenAgain.bind jsToNumberInt).map (fun n => n - 1)
        jsIndexByNumber bookings idx
      else
        pure (some Json.null)
  | none => pure (some Json.null)

/-- The personalization line of the kundli click handler (line 204):
last?.name ? interpolated paragraph : empty string. -/
def ownerLine (last : Option Json) : String :=
  match jsOptChainProp last "name" with
  | some nm =>
      if jsTruthy nm then "<p><strong>For:</strong> " ++ jsToString nm ++ "</p>" else ""
  | none => ""

/-- The modal HTML built by the kundli click handler (line 205). -/
def houseModalHtml (house : String) (owner : String) : String :=
  "<h3>House " ++ house ++ " - Short interpretation</h3>" ++ owner ++
    "<p>Short generic interpretation for house " ++ house ++ ". Book for full analysis.</p>"

/-- The kundli sector click handler (script.js lines 199-206): read the
journal, take the most recent booking, build the personalization line,
and call showModal with the house interpretation HTML.  An ok result
carries the HTML handed to showModal; an error means the handler threw
before showModal was reached, so no modal opens. -/
def sectorClick (house : String) (stored : StoredJournal) : Except JsError String := do
  let last ← lastBooking stored
  pure (houseModalHtml house (ownerLine last))

/-- Input state of the quick booking form (script.js lines 59-61): the
values of #qname, #qemail and #qdob, each absent when the element is
missing from the page. -/
structure QuickInput where
  qname : Option String
  qemail : Option String
  qdob : Option String

/-- Observable outcome of a quick-book submission: the resulting
storage cell, the alert shown (if any), and whether the form was
reset. -/
structure QuickOutcome where
  stored : StoredJournal
  alerted : Option String
  formReset : Bool

/-- The record built by the quick-book handler (line 63). -/
def quickRecord (name email dob now : String) : Json :=
  .obj [("name", .str name), ("email", .str email), ("dob", .str dob), ("created", .str now)]

/-- The quick booking submit handler (script.js lines 57-68).  Name and
email are trimmed before the falsiness check; dob is used untrimmed.
A thrown error (journal parse failure, push on a non-array, storage
quota) propagates out of the handler before the receipt alert and the
reset. -/
def quickSubmit (inp : QuickInput) (now : String) (canWrite : Bool)
    (stored : StoredJournal) : Except JsError QuickOutcome :=
  let name := inp.qname.map jsTrim
  let email := inp.qemail.map jsTrim
  let dob := inp.qdob
  match name, email, dob with
  | some n, some e, some d =>
      if n = "" ∨ e = "" ∨ d = "" then
        .ok { stored := stored, alerted := some "Please fill all quick booking fields.",
              formReset := false }
      else do
        let arr ← readJournal stored
        let arr2 ← jsPush arr (quickRecord n e d now)
        let st ← setJournal canWrite arr2
        pure { stored := st, alerted := some "Quick request received. We will contact you soon.",
               formReset := true }
  | _, _, _ =>
      .ok { stored := stored, alerted := some "Please fill all quick booking fields.",
            formReset := false }

/-- Input state of the full booking form: the checkValidity() verdict,
the honeypot field value (absent when no .hp element exists), the
FormData entries in order, and the data-endpoint attribute. -/
structure BookingInput where
  valid : Bool
  hp : Option String
  fields : List (String × String)
  endpoint : Option String

/-- Outcome of the awaited fetch: a resolved response (with resp.ok,
the HTTP status, and the body as read by resp.json(), where a body
parse failure was already mapped to null by the attached catch), or a
rejection (network failure, or the 15-second AbortController
timeout). -/
inductive NetResult where
  | response (ok : Bool) (status : Nat) (body : Json)
  | failure

/-- Observable outcome of a full-booking submission: the resulting
storage cell, every text written to #booking-status in order, whether
the form was reset, and whether reportValidity was invoked. -/
structure BookingOutcome where
  stored : StoredJournal
  statusWrites : List String
  formReset : Bool
  reportedValidity : Bool

/-- Truthiness of the honeypot check (line 85): a .hp element exists
and its value is a non-empty string. -/
def hpPopulated : Option String → Bool
  | some v => decide (v ≠ "")
  | none => false

/-- obj[k] = v assignment on an object kept as an ordered field list:
an existing key is updated in place, a new key is appended. -/
def objInsert (fs : List (String × Json)) (k : String) (v : Json) : List (String × Json) :=
  if fs.any (fun p => p.1 = k) then fs.map (fun p => if p.1 = k then (k, v) else p)
  else fs ++ [(k, v)]

/-- fd.forEach((v,k) => obj[k] = v) (lines 91-93): fold the FormData
entries into an object. -/
def collectFields (fields : List (String × String)) : List (String × Json) :=
  fields.foldl (fun fs kv => objInsert fs kv.1 (.str kv.2)) []

/-- Object spread with trailing explicit keys, as in
the record literals of lines 117 and 130. -/
def mkRecordObj (base : List (String × Json)) (extra : List (String × Json)) : Json :=
  .obj (extra.foldl (fun fs kv => objInsert fs kv.1 kv.2) base)

def msgSubmitting : String := "Submitting..."

def msgConfirmed : String := "Booking confirmed. We will email you shortly."

def msgNetworkIssue : String := "Network issue — booking saved locally. We will retry later."

def msgNoEndpoint : String := "No server endpoint configured — saving locally."

def msgSavedLocally : String := "Saved locally. You will receive confirmation after manual review."

def msgSaveFailed : String := "Failed to save booking. Please try again later or contact via WhatsApp."

/-- The fallback local save of the booking handler (script.js lines
128-136): read the journal, push the fallback record, write it back;
on any thrown error report the failure status and leave the form in
whatever reset state it already reached. -/
def fallbackSave (obj : List (String × Json)) (now : String) (canWrite : Bool)
    (stored : StoredJournal) (statuses : List String) (resetSoFar : Bool) : BookingOutcome :=
  match (do
      let arr ← readJournal stored
      let arr2 ← jsPush arr (mkRecordObj obj [("fallbackSavedAt", Json.str now)])
      setJournal canWrite arr2 : Except JsError StoredJournal) with
  | .ok st =>
      { stored := st, statusWrites := statuses ++ [msgSavedLocally],
        formReset := true, reportedValidity := false }
  | .error _ =>
      { stored := stored, statusWrites := statuses ++ [msgSaveFailed],
        formReset := resetSoFar, reportedValidity := false }

/-- The full booking submit handler (script.js lines 75-137).  Order of
effects on the network-success path follows the source: the confirmed
status and the form reset happen before the local write, so a write
failure there is caught and falls through to the fallback save with
the form already reset. -/
def bookingSubmit (inp : BookingInput) (net : NetResult) (now : String) (canWrite : Bool)
    (stored : StoredJournal) : BookingOutcome :=
  if !inp.valid then
    { stored := stored, statusWrites := [], formReset := false, reportedValidity := true }
  else if hpPopulated inp.hp then
    { stored := stored, statusWrites := [], formReset := false, reportedValidity := false }
  else
    let obj := collectFields inp.fields
    let st0 := [msgSubmitting]
    match inp.endpoint with
    | some ep =>
        if jsStartsWith ep "http" then
          match net with
          | .response true _ body =>
              match (do
                  let arr ← readJournal stored
                  let arr2 ← jsPush arr (mkRecordObj obj
                    [("serverResponse", body), ("submittedAt", Json.str now)])
                  setJournal canWrite arr2 : Except JsError StoredJournal) with
              | .ok st =>
                  { stored := st, statusWrites := st0 ++ [msgConfirmed],
                    formReset := true, reportedValidity := false }
              | .error _ =>
                  fallbackSave obj now canWrite stored
                    (st0 ++ [msgConfirmed, msgNetworkIssue]) true
          | .response false _ _ =>
              fallbackSave obj now canWrite stored (st0 ++ [msgNetworkIssue]) false
          | .failure =>
              fallbackSave obj now canWrite stored (st0 ++ [msgNetworkIssue]) false
        else
          fallbackSave obj now canWrite stored (st0 ++ [msgNoEndpoint]) false
    | none => fallbackSave obj now canWrite stored (st0 ++ [msgNoEndpoint]) false

/-- A concrete bot-marked full-booking input: honeypot populated. -/
def botInput : BookingInput :=
  { valid := true, hp := some "bot", fields := [("name", "A")], endpoint := some "https://x" }

/-- A concrete valid full-booking input with an http endpoint. -/
def okInput : BookingInput :=
  { valid := true, hp := none, fields := [("name", "A")], endpoint := some "https://api.example" }

/-- A concrete valid full-booking input with no endpoint configured. -/
def noEndpointInput : BookingInput :=
  { valid := true, hp := none, fields := [("name", "A")], endpoint := none }

/-- State of the modal presenter: the .site-modal elements currently
attached to the document (in document order, each with an identity and
its content HTML), the document keydown Escape listeners currently
registered (identified by the modal instance their closure captured),
and a counter supplying fresh instance identities. -/
structure ModalState where
  modals : List (Nat × String)
  escListeners : List Nat
  nextId : Nat
deriving DecidableEq

def initModalState : ModalState :=
  { modals := [], escListeners := [], nextId := 0 }

/-- showModal (script.js lines 153-176): querySelector('.site-modal')
finds the first attached modal (if any) and removes that element, then
a fresh modal is appended and a fresh document Escape listener is
registered.  Removing the old element does not deregister its Escape
listener. -/
def showModal (html : String) (s : ModalState) : ModalState :=
  let afterRemove :=
    match s.modals with
    | [] => ([] : List (Nat × String))
    | _ :: rest => rest
  { modals := afterRemove ++ [(s.nextId, html)],
    escListeners := s.escListeners ++ [s.nextId],
    nextId := s.nextId + 1 }

/-- Where inside an attached modal a click event's target lies: the
outer .site-modal wrapper element itself, the .site-modal__backdrop
child, the .site-modal__panel, the close button, or the content
area. -/
inductive ClickTarget where
  | wrapper
  | backdrop
  | panel
  | closeBtn
  | content
deriving DecidableEq

/-- The click listener installed on the modal element (lines 172-174):
the modal is removed exactly when the event target is the modal
wrapper element itself or the close button.  A click anywhere when no
modal is attached reaches no listener. -/
def modalClick (t : ClickTarget) (s : ModalState) : ModalState :=
  match s.modals with
  | [] => s
  | _ :: rest =>
      if t = ClickTarget.wrapper ∨ t = ClickTarget.closeBtn then
        { s with modals := rest }
      else s

/-- An Escape keydown (line 175): every registered esc closure fires;
each removes the modal element it captured (a no-op if that element is
already detached) and deregisters itself. -/
def escapePress (s : ModalState) : ModalState :=
  { s with modals := s.modals.filter (fun p => decide (p.1 ∉ s.escListeners)),
           escListeners := [] }

/-- User-visible events driving the modal presenter. -/
inductive ModalEvent where
  | present (html : String)
  | click (t : ClickTarget)
  | escape

def modalStep : ModalEvent → ModalState → ModalState
  | .present h, s => showModal h s
  | .click t, s => modalClick t s
  | .escape, s => escapePress s

/-- Run a sequence of modal events from the initial page state. -/
def runModal (evts : List ModalEvent) : ModalState :=
  evts.foldl (fun s e => modalStep e s) initModalState

/-- Invariant of reachable modal states: at most one modal is attached
and every attached modal still has its Escape listener registered. -/
def modalInv (s : ModalState) : Prop :=
  s.modals.length ≤ 1 ∧ ∀ p ∈ s.modals, p.1 ∈ s.escListeners

/-- The article contents object of the blog read buttons (script.js
lines 144-147). -/
def articleContents : List (String × String) :=
  [("birth-chart",
    "<h3>What is a Birth Chart?</h3><p>A birth chart maps planetary positions at your birth. Book a consultation for full report.</p>"),
   ("compatibility",
    "<h3>Marriage Compatibility</h3><p>Kundli matching compares moon sign, guna milan and planetary positions.</p>")]

/-- The content selection of the article button handler: the object
lookup, with the || fallback replacing an undefined or falsy (empty)
result. -/
def articleContent (key : String) : String :=
  match (articleContents.find? (fun p => p.1 = key)).map (fun p => p.2) with
  | some c => if c = "" then "<p>Article not found.</p>" else c
  | none => "<p>Article not found.</p>"

/-- The article button click handler (lines 141-150): pick the content
for the button's data-article key and call showModal. -/
def articleClick (key : String) (s : ModalState) : ModalState :=
  showModal (articleContent key) s

/-- Kundli geometry constants (script.js line 184). -/
noncomputable def cx : ℝ := 180

noncomputable def cy : ℝ := 180

noncomputable def r : ℝ := 140

/-- Start angle of sector i in degrees: i*30 - 90 (line 188). -/
def startDeg (i : ℕ) : ℤ := 30 * (i : ℤ) - 90

/-- End angle of sector i in degrees: (i+1)*30 - 90 (line 189). -/
def endDeg (i : ℕ) : ℤ := 30 * ((i : ℤ) + 1) - 90

/-- Degree-to-radian conversion d * Math.PI / 180. -/
noncomputable def degToRad (d : ℤ) : ℝ := (d : ℝ) * Real.pi / 180

noncomputable def startAngle (i : ℕ) : ℝ := degToRad (startDeg i)

noncomputable def endAngle (i : ℕ) : ℝ := degToRad (endDeg i)

/-- The path data of one sector wedge, in the shape of the path string
M cx cy L x1 y1 A r r 0 0 1 x2 y2 Z built at line 192. -/
structure PathWedge where
  moveX : ℝ
  moveY : ℝ
  lineX : ℝ
  lineY : ℝ
  arcRadiusX : ℝ
  arcRadiusY : ℝ
  arcXAxisRotation : ℤ
  arcLargeArcFlag : ℤ
  arcSweepFlag : ℤ
  arcEndX : ℝ
  arcEndY : ℝ
  closePath : Bool

/-- The SVG text element placed as a sector's label (lines 210-220). -/
structure TextLabel where
  x : ℝ
  y : ℝ
  fill : String
  fontSize : String
  textAnchor : String
  content : String

/-- All attributes generated for one sector: the wedge path, its fill,
stroke and data-house attributes, and its label. -/
structure SectorElems where
  d : PathWedge
  fill : String
  stroke : String
  dataHouse : String
  label : TextLabel

/-- One iteration of the buildKundli loop (script.js lines 187-221). -/
noncomputable def buildSectorElems (i : ℕ) : SectorElems :=
  let sa := startAngle i
  let ea := endAngle i
  let x1 := cx + r * Real.cos sa
  let y1 := cy + r * Real.sin sa
  let x2 := cx + r * Real.cos ea
  let y2 := cy + r * Real.sin ea
  let mid := (sa + ea) / 2
  { d := { moveX := cx, moveY := cy, lineX := x1, lineY := y1,
           arcRadiusX := r, arcRadiusY := r, arcXAxisRotation := 0,
           arcLargeArcFlag := 0, arcSweepFlag := 1,
           arcEndX := x2, arcEndY := y2, closePath := true },
    fill := if i % 2 = 0 then "#121227" else "#0f1020",
    stroke := "rgba(255,255,255,0.02)",
    dataHouse := toString (i + 1),
    label := { x := cx + (r - 40) * Real.cos mid,
               y := cy + (r - 40) * Real.sin mid,
               fill := "#d3d3e6", fontSize := "12", textAnchor := "middle",
               content := toString (i + 1) } }

/-- The full sector list generated by the loop for (let i=0;i<12;i++). -/
noncomputable def kundliSlices : List SectorElems :=
  (List.range 12).map buildSectorElems

/-- A point at distance ρ from a center along direction θ lies at
squared distance ρ² from that center. -/
theorem polar_dist_sq (ρ θ : ℝ) :
    (ρ * Real.cos θ) ^ 2 + (ρ * Real.sin θ) ^ 2 = ρ ^ 2 := by
  calc (ρ * Real.cos θ) ^ 2 + (ρ * Real.sin θ) ^ 2
      = ρ ^ 2 * (Real.sin θ ^ 2 + Real.cos θ ^ 2) := by ring
    _ = ρ ^ 2 := by rw [Real.sin_sq_add_cos_sq, mul_one]

/-- On a journal parsing to a nonempty array, the most-recent lookup
returns the final element. -/
theorem lastBooking_concat (l : List Json) (x : Json) :
    lastBooking (StoredJournal.parsed (Json.arr (l ++ [x]))) = Except.ok (some x) := by
  have hlen : (l ++ [x]).length = l.length + 1 := by simp
  have hne : ((l ++ [x]).length : Int) ≠ 0 := by rw [hlen]; omega
  have hge : (0 : Int) ≤ ((l ++ [x]).length : Int) - 1 := by rw [hlen]; omega
  have hidx : (((l ++ [x]).length : Int) - 1).toNat = l.length := by rw [hlen]; omega
  simp [lastBooking, readJournal, jsLength, jsTruthy, jsToNumberInt, jsIndexByNumber,
    bind, Except.bind, hne, hge, hidx, List.getElem?_concat_length]
  intro h
  exact absurd h (by omega)

theorem modalInv_init : modalInv initModalState := by
  constructor
  · simp [initModalState]
  · intro p hp
    simp [initModalState] at hp

theorem modalInv_step (e : ModalEvent) (s : ModalState) (h : modalInv s) :
    modalInv (modalStep e s) := by
  obtain ⟨h1, h2⟩ := h
  cases e with
  | present html =>
      cases hm : s.modals with
      | nil =>
          constructor
          · simp [modalStep, showModal, hm]
          · intro q hq
            simp [modalStep, showModal, hm] at hq ⊢
            simp [hq]
      | cons p rest =>
          have hrest : rest = [] := by
            rw [hm] at h1
            simp only [List.length_cons] at h1
            exact List.eq_nil_of_length_eq_zero (by omega)
          constructor
          · simp [modalStep, showModal, hm, hrest]
          · intro q hq
            simp [modalStep, showModal, hm, hrest] at hq ⊢
            simp [hq]
  | click t =>
      cases hm : s.modals with
      | nil =>
          have hstep : modalStep (ModalEvent.click t) s = s := by
            simp [modalStep, modalClick, hm]
          rw [hstep]
          exact ⟨h1, h2⟩
      | cons p rest =>
          simp only [modalStep, modalClick, hm]
          by_cases ht : t = ClickTarget.wrapper ∨ t = ClickTarget.closeBtn
          · rw [if_pos ht]
            constructor
            · show rest.length ≤ 1
              rw [hm] at h1
              simp only [List.length_cons] at h1
              omega
            · intro q hq
              exact h2 q (by rw [hm]; exact List.mem_cons_of_mem p hq)
          · rw [if_neg ht]
            exact ⟨h1, h2⟩
  | escape =>
      constructor
      · calc (modalStep ModalEvent.escape s).modals.length
            ≤ s.modals.length := List.length_filter_le _ _
          _ ≤ 1 := h1
      · intro q hq
        simp only [modalStep, escapePress] at hq
        have hq1 := List.of_mem_filter hq
        have hq2 := List.mem_of_mem_filter hq
        exact absurd (h2 q hq2) (by simpa using hq1)

/-- Every state reachable from the initial page state keeps at most one
modal attached, each with a live Escape listener. -/
theorem modalInv_run (evts : List ModalEvent) : modalInv (runModal evts) := by
  suffices h : ∀ s, modalInv s → modalInv (evts.foldl (fun s e => modalStep e s) s) by
    exact h _ modalInv_init
  induction evts with
  | nil => intro s hs; exact hs
  | cons e es ih =>
      intro s hs
      exact ih _ (modalInv_step e s hs)

/-- The half-open 30-degree sector intervals partition the degree range
from -90 to 270: every angle in it lies in exactly one sector. -/
theorem sector_tiling (x : ℚ) (h1 : -90 ≤ x) (h2 : x < 270) :
    ∃! j : ℕ, j < 12 ∧ (startDeg j : ℚ) ≤ x ∧ x < (endDeg j : ℚ) := by
  have h30 : (0 : ℚ) < 30 := by norm_num
  have hq0 : (0 : ℚ) ≤ (x + 90) / 30 := by
    apply div_nonneg _ (le_of_lt h30)
    linarith
  have hq12 : (x + 90) / 30 < 12 := by
    rw [div_lt_iff₀ h30]
    linarith
  have hk0 : 0 ≤ ⌊(x + 90) / 30⌋ := Int.le_floor.mpr (by exact_mod_cast hq0)
  have hk12 : ⌊(x + 90) / 30⌋ < 12 := Int.floor_lt.mpr (by exact_mod_cast hq12)
  have hfl : (⌊(x + 90) / 30⌋ : ℚ) ≤ (x + 90) / 30 := Int.floor_le _
  have hfh : (x + 90) / 30 < ⌊(x + 90) / 30⌋ + 1 := Int.lt_floor_add_one _
  have hlow : (⌊(x + 90) / 30⌋ : ℚ) * 30 ≤ x + 90 := by
    calc (⌊(x + 90) / 30⌋ : ℚ) * 30 ≤ ((x + 90) / 30) * 30 := by nlinarith
      _ = x + 90 := by field_simp
  have hhigh : x + 90 < ((⌊(x + 90) / 30⌋ : ℚ) + 1) * 30 := by
    calc x + 90 = ((x + 90) / 30) * 30 := by field_simp
      _ < ((⌊(x + 90) / 30⌋ : ℚ) + 1) * 30 := by nlinarith
  refine ⟨⌊(x + 90) / 30⌋.toNat, ⟨?_, ?_, ?_⟩, ?_⟩
  · omega
  · unfold startDeg
    push_cast [Int.toNat_of_nonneg hk0]
    linarith
  · unfold endDeg
    push_cast [Int.toNat_of_nonneg hk0]
    linarith
  · rintro j ⟨hj12, hjl, hjh⟩
    unfold startDeg at hjl
    unfold endDeg at hjh
    push_cast at hjl hjh
    have hj : ⌊(x + 90) / 30⌋ = (j : ℤ) := by
      apply Int.floor_eq_iff.mpr
      constructor
      · rw [le_div_iff₀ h30]
        push_cast
        linarith
      · rw [div_lt_iff₀ h30]
        push_cast
        linarith
    omega

/-- C2 counterexample: stored journal content that is not valid JSON is
not treated as an empty sequence — the JSON.parse at the read site
throws, so the most-recent lookup raises a SyntaxError instead of
yielding none. -/
theorem c2_malformed_raises :
    lastBooking StoredJournal.malformed = Except.error JsError.syntaxError := rfl

/-- C2 (amended): an absent journal key is read as the empty sequence
and the most-recent lookup yields null; a stored non-array JSON object
also yields null without raising; but malformed (unparseable) stored
content makes JSON.parse throw a SyntaxError that propagates to the
reader. -/
theorem c2_journal_read_amended :
    readJournal StoredJournal.absent = Except.ok (Json.arr []) ∧
    lastBooking StoredJournal.absent = Except.ok (some Json.null) ∧
    lastBooking (StoredJournal.parsed (Json.obj [])) = Except.ok (some Json.null) ∧
    readJournal StoredJournal.malformed = Except.error JsError.syntaxError :=
  ⟨rfl, rfl, rfl, rfl⟩

/-- C3 counterexample: with unreadable (malformed) journal data the
sector click handler throws inside JSON.parse before showModal is
reached, so activating a sector opens no modal at all. -/
theorem c3_unreadable_blocks_modal :
    sectorClick "7" StoredJournal.malformed = Except.error JsError.syntaxError := rfl

/-- C3 (amended): activating a sector with a missing journal key opens
the modal without a personalization line; with a readable journal whose
last record has a non-empty name the modal opens with the For-name
line, and with a last record lacking a name field it opens without one;
but with malformed journal content the handler throws and the modal
does not open. -/
theorem c3_sector_modal_amended (house : String) (l : List Json)
    (fieldsLast fieldsNoName : List (String × Json)) (nm : String)
    (hnm : objLookup fieldsLast "name" = some (Json.str nm)) (hne : nm ≠ "")
    (hno : objLookup fieldsNoName "name" = none) :
    sectorClick house StoredJournal.absent = Except.ok (houseModalHtml house "") ∧
    sectorClick house (StoredJournal.parsed (Json.arr (l ++ [Json.obj fieldsLast]))) =
      Except.ok (houseModalHtml house ("<p><strong>For:</strong> " ++ nm ++ "</p>")) ∧
    sectorClick house (StoredJournal.parsed (Json.arr (l ++ [Json.obj fieldsNoName]))) =
      Except.ok (houseModalHtml house "") ∧
    sectorClick house StoredJournal.malformed = Except.error JsError.syntaxError := by
  refine ⟨rfl, ?_, ?_, rfl⟩
  · rw [sectorClick, lastBooking_concat]
    simp [bind, Except.bind, pure, Except.pure, ownerLine, jsOptChainProp, hnm, jsTruthy, hne,
      jsToString]
  · rw [sectorClick, lastBooking_concat]
    simp [bind, Except.bind, pure, Except.pure, ownerLine, jsOptChainProp, hno]

/-- C3 witness: the spec's own example — a journal holding one record
with name Asha, activating house sector 5 — produces the modal HTML
with the For: Asha line. -/
theorem c3_sector_modal_amended_witness :
    sectorClick "5" (StoredJournal.parsed (Json.arr [Json.obj
        [("name", Json.str "Asha"), ("email", Json.str "a@x.com"),
         ("dob", Json.str "1990-01-01"), ("created", Json.str "T1")]])) =
      Except.ok (houseModalHtml "5" ("<p><strong>For:</strong> " ++ "Asha" ++ "</p>")) :=
  (c3_sector_modal_amended "5" []
    [("name", Json.str "Asha"), ("email", Json.str "a@x.com"),
     ("dob", Json.str "1990-01-01"), ("created", Json.str "T1")]
    [] "Asha" rfl (by decide) rfl).2.1

/-- C6 counterexample: a quick-book submission whose date-of-birth is a
single space — empty after trimming — still appends a record and resets
the form, because the handler checks the dob value without trimming
it. -/
theorem c6_untrimmed_dob_appends :
    jsTrim " " = "" ∧
    quickSubmit { qname := some "Asha", qemail := some "a@x.com", qdob := some " " }
        "T3" true StoredJournal.absent =
      Except.ok { stored := StoredJournal.parsed (Json.arr [quickRecord "Asha" "a@x.com" " " "T3"]),
                  alerted := some "Quick request received. We will contact you soon.",
                  formReset := true } :=
  ⟨rfl, rfl⟩

/-- C6 (amended): on a readable journal with working storage, a
quick-book submission appends exactly one record (name, email, dob and
creation timestamp) and resets the fields exactly when the trimmed name
and trimmed email are non-empty and the raw (untrimmed) dob value is
non-empty; otherwise — including when an input element is missing —
nothing is appended and the validation alert is shown. -/
theorem c6_quick_book_amended (n e d now : String) (l : List Json) (stored : StoredJournal)
    (hs : readJournal stored = Except.ok (Json.arr l)) :
    (jsTrim n ≠ "" → jsTrim e ≠ "" → d ≠ "" →
      quickSubmit { qname := some n, qemail := some e, qdob := some d } now true stored =
        Except.ok { stored := StoredJournal.parsed
                      (Json.arr (l ++ [quickRecord (jsTrim n) (jsTrim e) d now])),
                    alerted := some "Quick request received. We will contact you soon.",
                    formReset := true }) ∧
    ((jsTrim n = "" ∨ jsTrim e = "" ∨ d = "") →
      quickSubmit { qname := some n, qemail := some e, qdob := some d } now true stored =
        Except.ok { stored := stored,
                    alerted := some "Please fill all quick booking fields.",
                    formReset := false }) ∧
    (∀ em db, quickSubmit { qname := none, qemail := em, qdob := db } now true stored =
        Except.ok { stored := stored,
                    alerted := some "Please fill all quick booking fields.",
                    formReset := false }) := by
  refine ⟨?_, ?_, ?_⟩
  · intro hn he hd
    have hcond : ¬(jsTrim n = "" ∨ jsTrim e = "" ∨ d = "") := by
      simp [hn, he, hd]
    simp [quickSubmit, hcond, hs, bind, Except.bind, jsPush, setJournal, pure, Except.pure]
  · intro hcond
    simp [quickSubmit, hcond]
  · intro em db
    rfl

/-- C6 witness: a fully-filled quick-book submission on an empty
journal appends the one record and resets the form. -/
theorem c6_quick_book_amended_witness :
    quickSubmit { qname := some " Asha ", qemail := some "a@x.com", qdob := some "1990-01-01" }
        "T1" true StoredJournal.absent =
      Except.ok { stored := StoredJournal.parsed
                    (Json.arr [quickRecord "Asha" "a@x.com" "1990-01-01" "T1"]),
                  alerted := some "Quick request received. We will contact you soon.",
                  formReset := true } :=
  (c6_quick_book_amended " Asha " "a@x.com" "1990-01-01" "T1" [] StoredJournal.absent rfl).1
    (by decide) (by decide) (by decide)

/-- C9: a full-booking submission with a populated honeypot field
appends no record, writes nothing to the status display, and does not
reset the form, whatever the network, storage and validity state. -/
theorem c9_honeypot_silent (inp : BookingInput) (net : NetResult) (now : String)
    (canWrite : Bool) (stored : StoredJournal) (v : String)
    (hhp : inp.hp = some v) (hv : v ≠ "") :
    (bookingSubmit inp net now canWrite stored).stored = stored ∧
    (bookingSubmit inp net now canWrite stored).statusWrites = [] ∧
    (bookingSubmit inp net now canWrite stored).formReset = false := by
  have h : bookingSubmit inp net now canWrite stored =
      { stored := stored, statusWrites := [], formReset := false,
        reportedValidity := !inp.valid } := by
    unfold bookingSubmit
    cases hval : inp.valid with
    | false => simp
    | true => simp [hpPopulated, hhp, hv]
  rw [h]

  exact ⟨rfl, rfl, rfl⟩

/-- C9 witness: a concrete bot-filled submission produces no status
writes. -/
theorem c9_honeypot_silent_witness :
    (bookingSubmit botInput NetResult.failure "T4" true StoredJournal.absent).statusWrites = [] :=
  (c9_honeypot_silent botInput NetResult.failure "T4" true StoredJournal.absent
    "bot" rfl (by decide)).2.1

/-- C4 counterexample: opening a second modal while one is open leaves
two live Escape listeners; a click whose target is the backdrop element
does not dismiss the modal; and dismissing via the close button leaves
the Escape listener registered. -/
theorem c4_modal_counterexample :
    (runModal [ModalEvent.present "a", ModalEvent.present "b"]).escListeners = [0, 1] ∧
    (runModal [ModalEvent.present "a", ModalEvent.click ClickTarget.backdrop]).modals = [(0, "a")] ∧
    (runModal [ModalEvent.present "a", ModalEvent.click ClickTarget.closeBtn]).modals = [] ∧
    (runModal [ModalEvent.present "a", ModalEvent.click ClickTarget.closeBtn]).escListeners = [0] :=
  ⟨rfl, rfl, rfl, rfl⟩

/-- C4 (amended): at most one modal overlay is ever attached, and show
replaces any open overlay with the new one; but a click dismisses only
when its target is the outer wrapper element or the close button (a
backdrop-targeted click does not dismiss), and only an Escape press
deregisters Escape listeners — show and click-dismissal leave previous
listeners registered, so they accumulate until the next Escape press
removes the overlay and every listener. -/
theorem c4_modal_amended (evts : List ModalEvent) (s : ModalState) (h : modalInv s)
    (html : String) (t : ClickTarget)
    (ht : t ≠ ClickTarget.wrapper ∧ t ≠ ClickTarget.closeBtn) :
    (runModal evts).modals.length ≤ 1 ∧
    (showModal html s).modals = [(s.nextId, html)] ∧
    (showModal html s).escListeners = s.escListeners ++ [s.nextId] ∧
    modalClick t s = s ∧
    (modalClick ClickTarget.closeBtn s).escListeners = s.escListeners ∧
    (escapePress s).modals = [] ∧
    (escapePress s).escListeners = [] := by
  obtain ⟨h1, h2⟩ := h
  refine ⟨(modalInv_run evts).1, ?_, rfl, ?_, ?_, ?_, rfl⟩
  · unfold showModal
    cases hm : s.modals with
    | nil => simp
    | cons p rest =>
        have hrest : rest = [] := by
          rw [hm] at h1
          simp only [List.length_cons] at h1
          exact List.eq_nil_of_length_eq_zero (by omega)
        simp [hrest]
  · unfold modalClick
    cases s.modals with
    | nil => rfl
    | cons p rest => simp [ht.1, ht.2]
  · unfold modalClick
    cases s.modals with
    | nil => rfl
    | cons p rest => simp
  · unfold escapePress
    rw [List.filter_eq_nil_iff]
    intro p hp
    simp [h2 p hp]

/-- C4 witness: from the initial page state, one show event leaves at
most one modal attached. -/
theorem c4_modal_amended_witness :
    (runModal [ModalEvent.present "x"]).modals.length ≤ 1 :=
  (c4_modal_amended [ModalEvent.present "x"] initModalState modalInv_init
    "y" ClickTarget.backdrop (by decide)).1

/-- C10: activating an article button whose data-article key is neither
birth-chart nor compatibility still opens exactly one modal, and its
content is the fixed fallback text Article not found. -/
theorem c10_article_fallback (key : String) (s : ModalState) (hs : s.modals.length ≤ 1)
    (h1 : key ≠ "birth-chart") (h2 : key ≠ "compatibility") :
    (articleClick key s).modals.length = 1 ∧
    (articleClick key s).modals.map Prod.snd = ["<p>Article not found.</p>"] := by
  have h1' : ¬("birth-chart" = key) := fun hh => h1 hh.symm
  have h2' : ¬("compatibility" = key) := fun hh => h2 hh.symm
  have hc : articleContent key = "<p>Article not found.</p>" := by
    unfold articleContent articleContents
    simp [List.find?, h1', h2']
  have hmod : (articleClick key s).modals = [(s.nextId, "<p>Article not found.</p>")] := by
    unfold articleClick
    rw [hc]
    unfold showModal
    cases hm : s.modals with
    | nil => simp
    | cons p rest =>
        have hrest : rest = [] := by
          rw [hm] at hs
          simp only [List.length_cons] at hs
          exact List.eq_nil_of_length_eq_zero (by omega)
        simp [hrest]
  rw [hmod]
  exact ⟨rfl, rfl⟩

/-- C10 witness: an unknown key on the initial page state opens one
modal showing the fallback content. -/
theorem c10_article_fallback_witness :
    (articleClick "nakshatra" initModalState).modals.map Prod.snd =
      ["<p>Article not found.</p>"] :=
  (c10_article_fallback "nakshatra" initModalState (by decide) (by decide) (by decide)).2

/-- C7: for a valid, non-bot submission with a configured web-scheme
endpoint, on a readable journal with working storage: an HTTP success
appends exactly one record carrying the server response and the form
is cleared; an HTTP error response or a network failure (including the
abort timeout) appends exactly one fallback-marked record without a
server response and the form is cleared. -/
theorem c7_booking_network (inp : BookingInput) (ep now : String) (l : List Json)
    (stored : StoredJournal)
    (hv : inp.valid = true) (hhp : inp.hp = none ∨ inp.hp = some "")
    (hep : inp.endpoint = some ep) (hhttp : jsStartsWith ep "http" = true)
    (hs : readJournal stored = Except.ok (Json.arr l)) :
    (∀ st body, bookingSubmit inp (NetResult.response true st body) now true stored =
      { stored := StoredJournal.parsed (Json.arr (l ++
                    [mkRecordObj (collectFields inp.fields)
                      [("serverResponse", body), ("submittedAt", Json.str now)]])),
        statusWrites := [msgSubmitting, msgConfirmed],
        formReset := true, reportedValidity := false }) ∧
    (∀ st body, bookingSubmit inp (NetResult.response false st body) now true stored =
      { stored := StoredJournal.parsed (Json.arr (l ++
                    [mkRecordObj (collectFields inp.fields)
                      [("fallbackSavedAt", Json.str now)]])),
        statusWrites := [msgSubmitting, msgNetworkIssue, msgSavedLocally],
        formReset := true, reportedValidity := false }) ∧
    (bookingSubmit inp NetResult.failure now true stored =
      { stored := StoredJournal.parsed (Json.arr (l ++
                    [mkRecordObj (collectFields inp.fields)
                      [("fallbackSavedAt", Json.str now)]])),
        statusWrites := [msgSubmitting, msgNetworkIssue, msgSavedLocally],
        formReset := true, reportedValidity := false }) := by
  have hhp2 : hpPopulated inp.hp = false := by
    rcases hhp with hh | hh <;> simp [hpPopulated, hh]
  refine ⟨?_, ?_, ?_⟩
  · intro st body
    simp [bookingSubmit, hv, hhp2, hep, hhttp, hs, bind, Except.bind, jsPush, setJournal]
  · intro st body
    simp [bookingSubmit, hv, hhp2, hep, hhttp, hs, bind, Except.bind, jsPush, setJournal,
      fallbackSave]
  · simp [bookingSubmit, hv, hhp2, hep, hhttp, hs, bind, Except.bind, jsPush, setJournal,
      fallbackSave]

/-- C7 witness: a concrete successful submission stores the server
response and resets the form. -/
theorem c7_booking_network_witness :
    bookingSubmit okInput (NetResult.response true 200 (Json.obj [("id", Json.num 7)]))
        "T5" true StoredJournal.absent =
      { stored := StoredJournal.parsed (Json.arr
                    [mkRecordObj (collectFields okInput.fields)
                      [("serverResponse", Json.obj [("id", Json.num 7)]),
                       ("submittedAt", Json.str "T5")]]),
        statusWrites := [msgSubmitting, msgConfirmed],
        formReset := true, reportedValidity := false } :=
  (c7_booking_network okInput "https://api.example" "T5" [] StoredJournal.absent
    rfl (Or.inl rfl) rfl rfl rfl).1 200 (Json.obj [("id", Json.num 7)])

/-- C8 counterexample: on a full-booking submission whose network phase
succeeded but whose local storage write throws, the form has already
been reset — the entered data is lost even though zero records were
persisted, contradicting the claim that the form is not reset on a
local-persistence write failure. -/
theorem c8_success_write_failure_resets :
    bookingSubmit okInput (NetResult.response true 200 Json.null) "T2" false
        StoredJournal.absent =
      { stored := StoredJournal.absent,
        statusWrites := [msgSubmitting, msgConfirmed, msgNetworkIssue, msgSaveFailed],
        formReset := true, reportedValidity := false } := rfl

/-- C8 (amended): when the journal storage write throws in the full
booking flow, the failure is always surfaced as the visible failed-to-
save status and no record is persisted; the form is not reset when the
network phase did not succeed (no endpoint, network failure, or HTTP
error), but when an HTTP success preceded the failing write the form
has already been reset, so the input is lost in that one path. -/
theorem c8_storage_failure_amended (inp : BookingInput) (net : NetResult) (ep now : String)
    (l : List Json) (stored : StoredJournal)
    (hv : inp.valid = true) (hhp : inp.hp = none ∨ inp.hp = some "")
    (hs : readJournal stored = Except.ok (Json.arr l)) :
    (inp.endpoint = none →
      bookingSubmit inp net now false stored =
        { stored := stored,
          statusWrites := [msgSubmitting, msgNoEndpoint, msgSaveFailed],
          formReset := false, reportedValidity := false }) ∧
    (inp.endpoint = some ep → jsStartsWith ep "http" = true →
      bookingSubmit inp NetResult.failure now false stored =
        { stored := stored,
          statusWrites := [msgSubmitting, msgNetworkIssue, msgSaveFailed],
          formReset := false, reportedValidity := false }) ∧
    (∀ st body, inp.endpoint = some ep → jsStartsWith ep "http" = true →
      bookingSubmit inp (NetResult.response false st body) now false stored =
        { stored := stored,
          statusWrites := [msgSubmitting, msgNetworkIssue, msgSaveFailed],
          formReset := false, reportedValidity := false }) ∧
    (∀ st body, inp.endpoint = some ep → jsStartsWith ep "http" = true →
      bookingSubmit inp (NetResult.response true st body) now false stored =
        { stored := stored,
          statusWrites := [msgSubmitting, msgConfirmed, msgNetworkIssue, msgSaveFailed],
          formReset := true, reportedValidity := false }) := by
  have hhp2 : hpPopulated inp.hp = false := by
    rcases hhp with hh | hh <;> simp [hpPopulated, hh]
  refine ⟨?_, ?_, ?_, ?_⟩
  · intro hep
    simp [bookingSubmit, hv, hhp2, hep, hs, bind, Except.bind, jsPush, setJournal, fallbackSave]
  · intro hep hhttp
    simp [bookingSubmit, hv, hhp2, hep, hhttp, hs, bind, Except.bind, jsPush, setJournal,
      fallbackSave]
  · intro st body hep hhttp
    simp [bookingSubmit, hv, hhp2, hep, hhttp, hs, bind, Except.bind, jsPush, setJournal,
      fallbackSave]
  · intro st body hep hhttp
    simp [bookingSubmit, hv, hhp2, hep, hhttp, hs, bind, Except.bind, jsPush, setJournal,
      fallbackSave]

/-- C8 witness: with no endpoint configured and a failing store, the
failure status is shown and the form is not reset. -/
theorem c8_storage_failure_amended_witness :
    bookingSubmit noEndpointInput NetResult.failure "T6" false StoredJournal.absent =
      { stored := StoredJournal.absent,
        statusWrites := [msgSubmitting, msgNoEndpoint, msgSaveFailed],
        formReset := false, reportedValidity := false } :=
  (c8_storage_failure_amended noEndpointInput NetResult.failure "x" "T6" []
    StoredJournal.absent rfl (Or.inl rfl) rfl).1 rfl

/-- C1: the generator produces exactly 12 sectors; sector i starts at
i*30 - 90 degrees and ends 30 degrees later; its wedge path moves to
the center, draws a line to the boundary point at the start angle
(which lies at distance r from the center), and sweeps a clockwise
(SVG sweep-flag 1) arc of radius r to the boundary point at the end
angle; and every angle in the 360-degree range from -90 to 270 lies in
exactly one sector's half-open span — no gaps and no overlaps. -/
theorem c1_sector_geometry (i : ℕ) (hi : i < 12) (x : ℚ)
    (hx1 : -90 ≤ x) (hx2 : x < 270) :
    (∃! j : ℕ, j < 12 ∧ (startDeg j : ℚ) ≤ x ∧ x < (endDeg j : ℚ)) ∧
    kundliSlices.length = 12 ∧
    startDeg i = 30 * (i : ℤ) - 90 ∧
    endDeg i = startDeg i + 30 ∧
    startAngle i = degToRad (startDeg i) ∧
    endAngle i = degToRad (endDeg i) ∧
    (buildSectorElems i).d.moveX = cx ∧
    (buildSectorElems i).d.moveY = cy ∧
    (buildSectorElems i).d.lineX = cx + r * Real.cos (startAngle i) ∧
    (buildSectorElems i).d.lineY = cy + r * Real.sin (startAngle i) ∧
    (buildSectorElems i).d.arcEndX = cx + r * Real.cos (endAngle i) ∧
    (buildSectorElems i).d.arcEndY = cy + r * Real.sin (endAngle i) ∧
    ((buildSectorElems i).d.lineX - cx) ^ 2 + ((buildSectorElems i).d.lineY - cy) ^ 2 = r ^ 2 ∧
    ((buildSectorElems i).d.arcEndX - cx) ^ 2 + ((buildSectorElems i).d.arcEndY - cy) ^ 2
      = r ^ 2 ∧
    (buildSectorElems i).d.arcRadiusX = r ∧
    (buildSectorElems i).d.arcRadiusY = r ∧
    (buildSectorElems i).d.arcSweepFlag = 1 ∧
    (buildSectorElems i).d.closePath = true := by
  have hline : ((buildSectorElems i).d.lineX - cx) ^ 2 + ((buildSectorElems i).d.lineY - cy) ^ 2
      = r ^ 2 := by
    have hx0 : (buildSectorElems i).d.lineX - cx = r * Real.cos (startAngle i) := by
      simp [buildSectorElems]
    have hy0 : (buildSectorElems i).d.lineY - cy = r * Real.sin (startAngle i) := by
      simp [buildSectorElems]
    rw [hx0, hy0]
    exact polar_dist_sq r (startAngle i)
  have harc : ((buildSectorElems i).d.arcEndX - cx) ^ 2 + ((buildSectorElems i).d.arcEndY - cy) ^ 2
      = r ^ 2 := by
    have hx0 : (buildSectorElems i).d.arcEndX - cx = r * Real.cos (endAngle i) := by
      simp [buildSectorElems]
    have hy0 : (buildSectorElems i).d.arcEndY - cy = r * Real.sin (endAngle i) := by
      simp [buildSectorElems]
    rw [hx0, hy0]
    exact polar_dist_sq r (endAngle i)
  refine ⟨sector_tiling x hx1 hx2, ?_, rfl, ?_, rfl, rfl, rfl, rfl, rfl, rfl, rfl, rfl,
    hline, harc, rfl, rfl, rfl, rfl⟩
  · simp [kundliSlices]
  · unfold endDeg startDeg
    ring

/-- C1 witness: the angle 0 (degrees) lies in exactly one sector. -/
theorem c1_sector_geometry_witness :
    ∃! j : ℕ, j < 12 ∧ (startDeg j : ℚ) ≤ 0 ∧ (0 : ℚ) < (endDeg j : ℚ) :=
  (c1_sector_geometry 5 (by decide) 0 (by norm_num) (by norm_num)).1

/-- C5: sector i's label text is the numeral for i+1, it is anchored
middle (horizontally centered), and it sits at the sector's angular
midpoint at radius r - 40 from the center; in particular the label of
the twelfth sector (index 11) is the string 12. -/
theorem c5_sector_labels (i : ℕ) (hi : i < 12) :
    (buildSectorElems i).label.content = toString (i + 1) ∧
    (buildSectorElems 11).label.content = "12" ∧
    (buildSectorElems i).label.textAnchor = "middle" ∧
    (buildSectorElems i).label.x
      = cx + (r - 40) * Real.cos ((startAngle i + endAngle i) / 2) ∧
    (buildSectorElems i).label.y
      = cy + (r - 40) * Real.sin ((startAngle i + endAngle i) / 2) ∧
    (startAngle i + endAngle i) / 2
      = (((startDeg i : ℝ) + (endDeg i : ℝ)) / 2) * Real.pi / 180 ∧
    ((buildSectorElems i).label.x - cx) ^ 2 + ((buildSectorElems i).label.y - cy) ^ 2
      = (r - 40) ^ 2 := by
  have hmid : (startAngle i + endAngle i) / 2
      = (((startDeg i : ℝ) + (endDeg i : ℝ)) / 2) * Real.pi / 180 := by
    unfold startAngle endAngle degToRad
    ring
  have hdist : ((buildSectorElems i).label.x - cx) ^ 2 + ((buildSectorElems i).label.y - cy) ^ 2
      = (r - 40) ^ 2 := by
    have hx0 : (buildSectorElems i).label.x - cx
        = (r - 40) * Real.cos ((startAngle i + endAngle i) / 2) := by
      simp [buildSectorElems]
    have hy0 : (buildSectorElems i).label.y - cy
        = (r - 40) * Real.sin ((startAngle i + endAngle i) / 2) := by
      simp [buildSectorElems]
    rw [hx0, hy0]
    exact polar_dist_sq (r - 40) ((startAngle i + endAngle i) / 2)
  exact ⟨rfl, rfl, rfl, rfl, rfl, hmid, hdist⟩

/-- C5 witness: the twelfth sector's label reads 12. -/
theorem c5_sector_labels_witness : (buildSectorElems 11).label.content = "12" :=
  (c5_sector_labels 11 (by decide)).2.1

end Jyotirvaani
